import Mathlib

set_option maxRecDepth 8000

/-! Verification of the deduplicated-traversal and outcome-ledger subsystem of
the hh-auto-applier repository. This file shallowly embeds `src/storage.py`
(class `VacancyStorage`), `src/vacancy.py` (class `VacancyCard`),
`src/modal.py` (`ApplicationModal.open`) and `src/bot.py`
(`HHApplierBot._process_card` and the page loop of
`HHApplierBot._process_search_query`), and proves theorems about the ledger
invariants, the per-card classification state machine, pagination termination
and durability. Machine-level concerns that no claim depends on are modelled
explicitly where they appear: timestamps (`time.time()`) are an abstract
`Nat` clock passed in by the caller, and the browser is an explicit
environment record of the branch outcomes the code observes. -/

/-- A Python `dict` with string keys, modelled as an insertion-ordered
association list: `d[k] = v` overwrites the value in place when `k` is
already present and appends a new binding otherwise, exactly as CPython
dicts behave. -/
abbrev Dict (α : Type) := List (String × α)

/-- Lookup in a Python dict: the value bound to `k`, if any. -/
def dictGet {α : Type} : Dict α → String → Option α
  | [], _ => none
  | (k, v) :: t, i => if k == i then some v else dictGet t i

/-- Python `d[k] = v`: overwrite in place, or append a new binding. -/
def dictInsert {α : Type} : Dict α → String → α → Dict α
  | [], k, v => [(k, v)]
  | (k', v') :: t, k, v =>
      if k' == k then (k, v) :: t else (k', v') :: dictInsert t k v

/-- Python `k in d`. -/
def dictContains {α : Type} (d : Dict α) (k : String) : Bool :=
  (dictGet d k).isSome

/-- A JSON value, as produced by Python's `json` module on the ledger files.
Numbers are modelled as integers: the only numbers the ledger writes are
`time.time()` timestamps, which this embedding models with an abstract
integer clock. -/
inductive Json where
  | null : Json
  | bool (b : Bool) : Json
  | num (n : Int) : Json
  | str (s : String) : Json
  | arr (elems : List Json) : Json
  | obj (fields : List (String × Json)) : Json

/-- What one of the two durable ledger files can hold, classified by what
`open(filename, encoding='utf-8')` followed by `json.load` does with it
(`VacancyStorage._load_json`, storage.py lines 25-35). `stored entries`
is a file holding a valid JSON object document, the only shape
`VacancyStorage._save_json` ever writes. -/
inductive FileContent where
  | missing : FileContent
  | ioError : FileContent
  | undecodable : FileContent
  | invalidJson : FileContent
  | stored (entries : Dict Json) : FileContent

/-- The observable outcome of `VacancyStorage._load_json`: either the loaded
partition, or an uncaught exception escaping the function. -/
inductive LoadResult where
  | ok (entries : Dict Json) : LoadResult
  | unicodeDecodeError : LoadResult

/-- `VacancyStorage._load_json` (storage.py lines 25-35): a missing file is
skipped via `os.path.exists`; `IOError` and `json.JSONDecodeError` are
caught and yield `{}`. A file whose bytes do not decode as UTF-8 makes
`json.load(f)` raise `UnicodeDecodeError`, which is neither a
`json.JSONDecodeError` nor an `IOError`, so it escapes the
`try`/`except` and propagates to the caller. -/
def loadJson : FileContent → LoadResult
  | FileContent.missing => LoadResult.ok []
  | FileContent.ioError => LoadResult.ok []
  | FileContent.undecodable => LoadResult.unicodeDecodeError
  | FileContent.invalidJson => LoadResult.ok []
  | FileContent.stored entries => LoadResult.ok entries

/-- The state of a `VacancyStorage` (storage.py lines 13-23) together with
the two durable files it owns. `processed` and `skipped` are the two
in-memory partitions; `procFile` and `skipFile` model the contents of
`processed_file` and `skipped_file` on disk. -/
structure VacancyStorage where
  processed : Dict Json
  skipped : Dict Json
  saveInterval : Nat
  saveCounter : Nat
  procFile : FileContent
  skipFile : FileContent

/-- `VacancyStorage.save` (storage.py lines 46-51): increment
`_save_counter`, then write both partitions through `_save_json` when
`force` is set or the incremented counter is a multiple of
`save_interval`. The second component records whether the write branch
ran. `_save_json` (lines 37-44) swallows `IOError`; a successful write is
modelled; a failed write would leave the file unchanged and is outside
every claim. -/
def storageSave (s : VacancyStorage) (force : Bool) : VacancyStorage × Bool :=
  if force || ((s.saveCounter + 1) % s.saveInterval == 0) then
    ({ s with saveCounter := s.saveCounter + 1,
              procFile := FileContent.stored s.processed,
              skipFile := FileContent.stored s.skipped }, true)
  else
    ({ s with saveCounter := s.saveCounter + 1 }, false)

/-- The entry `mark_processed` writes (storage.py lines 68-73). -/
def procEntry (title status : String) (coverLetter : Bool) (now : Int) : Json :=
  Json.obj [("title", Json.str title), ("status", Json.str status),
            ("cover_letter", Json.bool coverLetter), ("timestamp", Json.num now)]

/-- The entry `mark_skipped` writes (storage.py lines 78-82). -/
def skipEntry (title reason : String) (now : Int) : Json :=
  Json.obj [("title", Json.str title), ("reason", Json.str reason),
            ("timestamp", Json.num now)]

/-- `VacancyStorage.mark_processed` (storage.py lines 65-74): insert or
overwrite the processed-partition entry, then perform one unforced
conditional save. -/
def markProcessed (s : VacancyStorage) (vid title status : String)
    (coverLetter : Bool) (now : Int) : VacancyStorage :=
  (storageSave
    { s with processed := dictInsert s.processed vid (procEntry title status coverLetter now) }
    false).1

/-- `VacancyStorage.mark_skipped` (storage.py lines 76-83). -/
def markSkipped (s : VacancyStorage) (vid title reason : String) (now : Int) :
    VacancyStorage :=
  (storageSave
    { s with skipped := dictInsert s.skipped vid (skipEntry title reason now) }
    false).1

/-- `VacancyStorage.is_processed` (storage.py lines 53-55). -/
def isProcessed (s : VacancyStorage) (vid : String) : Bool :=
  dictContains s.processed vid

/-- `VacancyStorage.is_skipped` (storage.py lines 57-59). -/
def isSkipped (s : VacancyStorage) (vid : String) : Bool :=
  dictContains s.skipped vid

/-- `VacancyStorage.is_known` (storage.py lines 61-63). -/
def isKnown (s : VacancyStorage) (vid : String) : Bool :=
  isProcessed s vid || isSkipped s vid

/-- A freshly constructed storage whose two files were absent: both
partitions empty, counter zero, default `save_interval = 10`
(config.py line 57, storage.py line 16). -/
def emptyStorage : VacancyStorage :=
  { processed := [], skipped := [], saveInterval := 10, saveCounter := 0,
    procFile := FileContent.missing, skipFile := FileContent.missing }

/-- Whether one character list starts with another (used for Python's
substring test below). -/
def charsStart : List Char → List Char → Bool
  | [], _ => true
  | _ :: _, [] => false
  | a :: as, b :: bs => a == b && charsStart as bs

/-- Whether `needle` occurs as a contiguous run inside the second list. -/
def charsSub (needle : List Char) : List Char → Bool
  | [] => charsStart needle []
  | c :: t => charsStart needle (c :: t) || charsSub needle t

/-- Python's `needle in hay` on strings: contiguous-substring containment
(an empty needle is contained in everything, as in Python). -/
def strIn (needle hay : String) : Bool := charsSub needle.data hay.data

/-- Python `str.lower` on one character, for the alphabets this repository
actually handles: ASCII `A`-`Z` and Cyrillic `А`-`Я`/`Ё` (titles and
keywords on the target site are Russian or English). Other characters are
returned unchanged. -/
def pyLowerChar (c : Char) : Char :=
  if 65 ≤ c.toNat && c.toNat ≤ 90 then Char.ofNat (c.toNat + 32)
  else if 1040 ≤ c.toNat && c.toNat ≤ 1071 then Char.ofNat (c.toNat + 32)
  else if c.toNat == 1025 then Char.ofNat 1105
  else c

/-- Python `str.lower`, characterwise. -/
def pyLower (s : String) : String := String.mk (s.data.map pyLowerChar)

/-- `VacancyCard.is_suitable` (vacancy.py lines 99-102):
`any(kw.lower() in title_lower for kw in keywords)` where
`title_lower = self.title.lower()`. -/
def isSuitable (title : String) (keywords : List String) : Bool :=
  keywords.any (fun kw => strIn (pyLower kw) (pyLower title))

/-- Reduce modulo 2^32, the word size of the MD5 state. -/
def m32 (x : Nat) : Nat := x % 4294967296

/-- 32-bit left rotation of a word already below 2^32. -/
def rotl32 (x n : Nat) : Nat := m32 (x <<< n) ||| (x >>> (32 - n))

/-- MD5 per-round shift amounts (RFC 1321). -/
def md5s : List Nat :=
  [7, 12, 17, 22, 7, 12, 17, 22, 7, 12, 17, 22, 7, 12, 17, 22,
   5, 9, 14, 20, 5, 9, 14, 20, 5, 9, 14, 20, 5, 9, 14, 20,
   4, 11, 16, 23, 4, 11, 16, 23, 4, 11, 16, 23, 4, 11, 16, 23,
   6, 10, 15, 21, 6, 10, 15, 21, 6, 10, 15, 21, 6, 10, 15, 21]

/-- MD5 sine-derived round constants (RFC 1321). -/
def md5K : List Nat :=
  [0xd76aa478, 0xe8c7b756, 0x242070db, 0xc1bdceee,
   0xf57c0faf, 0x4787c62a, 0xa8304613, 0xfd469501,
   0x698098d8, 0x8b44f7af, 0xffff5bb1, 0x895cd7be,
   0x6b901122, 0xfd987193, 0xa679438e, 0x49b40821,
   0xf61e2562, 0xc040b340, 0x265e5a51, 0xe9b6c7aa,
   0xd62f105d, 0x02441453, 0xd8a1e681, 0xe7d3fbc8,
   0x21e1cde6, 0xc33707d6, 0xf4d50d87, 0x455a14ed,
   0xa9e3e905, 0xfcefa3f8, 0x676f02d9, 0x8d2a4c8a,
   0xfffa3942, 0x8771f681, 0x6d9d6122, 0xfde5380c,
   0xa4beea44, 0x4bdecfa9, 0xf6bb4b60, 0xbebfbc70,
   0x289b7ec6, 0xeaa127fa, 0xd4ef3085, 0x04881d05,
   0xd9d4d039, 0xe6db99e5, 0x1fa27cf8, 0xc4ac5665,
   0xf4292244, 0x432aff97, 0xab9423a7, 0xfc93a039,
   0x655b59c3, 0x8f0ccc92, 0xffeff47d, 0x85845dd1,
   0x6fa87e4f, 0xfe2ce6e0, 0xa3014314, 0x4e0811a1,
   0xf7537e82, 0xbd3af235, 0x2ad7d2bb, 0xeb86d391]

/-- MD5 round function F (rounds 0-15). -/
def md5F (b c d : Nat) : Nat := (b &&& c) ||| ((0xffffffff ^^^ b) &&& d)

/-- MD5 round function G (rounds 16-31). -/
def md5G (b c d : Nat) : Nat := (d &&& b) ||| ((0xffffffff ^^^ d) &&& c)

/-- MD5 round function H (rounds 32-47). -/
def md5H (b c d : Nat) : Nat := b ^^^ c ^^^ d

/-- MD5 round function I (rounds 48-63). -/
def md5I (b c d : Nat) : Nat := c ^^^ (b ||| (0xffffffff ^^^ d))

/-- One MD5 round: transform the register quadruple using message word
schedule `m` and round index `i`. -/
def md5Round (m : List Nat) (st : Nat × Nat × Nat × Nat) (i : Nat) :
    Nat × Nat × Nat × Nat :=
  let (a, b, c, d) := st
  let fg : Nat × Nat :=
    if i < 16 then (md5F b c d, i)
    else if i < 32 then (md5G b c d, (5 * i + 1) % 16)
    else if i < 48 then (md5H b c d, (3 * i + 5) % 16)
    else (md5I b c d, (7 * i) % 16)
  let f := m32 (fg.1 + a + md5K.getD i 0 + m.getD fg.2 0)
  (d, m32 (b + rotl32 f (md5s.getD i 0)), b, c)

/-- Little-endian 32-bit word from the first four bytes of a list. -/
def leWord (bs : List Nat) : Nat :=
  bs.getD 0 0 + 256 * bs.getD 1 0 + 65536 * bs.getD 2 0 + 16777216 * bs.getD 3 0

/-- The sixteen little-endian message words of one 64-byte block. -/
def chunkWords (chunk : List Nat) : List Nat :=
  (List.range 16).map (fun j => leWord (List.drop (4 * j) chunk))

/-- Process one 64-byte block of the padded message. -/
def md5Chunk (st : Nat × Nat × Nat × Nat) (chunk : List Nat) :
    Nat × Nat × Nat × Nat :=
  let m := chunkWords chunk
  let r := (List.range 64).foldl (md5Round m) st
  (m32 (st.1 + r.1), m32 (st.2.1 + r.2.1), m32 (st.2.2.1 + r.2.2.1),
   m32 (st.2.2.2 + r.2.2.2))

/-- The eight little-endian bytes of the 64-bit message bit length. -/
def le64 (n : Nat) : List Nat := (List.range 8).map (fun i => (n >>> (8 * i)) % 256)

/-- MD5 padding: a `0x80` byte, zeros to 56 mod 64, then the bit length. -/
def md5Pad (msg : List Nat) : List Nat :=
  msg ++ [0x80] ++ List.replicate ((120 - ((msg.length + 1) % 64)) % 64) 0
      ++ le64 ((8 * msg.length) % (2 ^ 64))

/-- Split a byte list into 64-byte blocks (`n` counts the blocks, so the
recursion is structural and kernel-reducible). -/
def chunksGo (l : List Nat) : Nat → List (List Nat)
  | 0 => []
  | n + 1 => l.take 64 :: chunksGo (l.drop 64) n

/-- The 64-byte blocks of a padded message. -/
def chunks64 (l : List Nat) : List (List Nat) := chunksGo l (l.length / 64)

/-- Lowercase hexadecimal digit. -/
def hexChar (n : Nat) : Char := (String.data "0123456789abcdef").getD n '0'

/-- Two lowercase hex digits of one byte. -/
def byteHex (b : Nat) : List Char := [hexChar (b / 16), hexChar (b % 16)]

/-- The MD5 digest of a byte sequence as a lowercase hex string, mirroring
Python's `hashlib.md5(...).hexdigest()`. -/
def md5Hex (msg : List Nat) : String :=
  let chunks := chunks64 (md5Pad msg)
  let r := chunks.foldl md5Chunk (0x67452301, 0xefcdab89, 0x98badcfe, 0x10325476)
  String.mk ((([r.1, r.2.1, r.2.2.1, r.2.2.2].map
      (fun w => (List.range 4).map (fun i => (w >>> (8 * i)) % 256))).flatten.map
      byteHex).flatten)

/-- UTF-8 encoding of one character, as Python's `str.encode()` produces. -/
def utf8Char (c : Char) : List Nat :=
  let n := c.toNat
  if n < 128 then [n]
  else if n < 2048 then [192 + n / 64, 128 + n % 64]
  else if n < 65536 then [224 + n / 4096, 128 + (n / 64) % 64, 128 + n % 64]
  else [240 + n / 262144, 128 + (n / 4096) % 64, 128 + (n / 64) % 64, 128 + n % 64]

/-- UTF-8 encoding of a string (Python `title.encode()`). -/
def utf8Encode (s : String) : List Nat := (s.data.map utf8Char).flatten

/-- The hash-fallback identity of vacancy.py line 66:
`"hash_" + hashlib.md5(self.title.encode()).hexdigest()[:12]`. -/
def hashId (title : String) : String :=
  "hash_" ++ (md5Hex (utf8Encode title)).take 12

/-- What a single `VacancyCard` exposes to the identity/title resolution of
vacancy.py. `dataVacancyId` is the `data-vacancy-id` attribute (`none`
when absent). `linkHref` is the `href` of the first link
`find_by_selectors` returns; `none` when no link is found or its `href`
attribute is `None`. `title` is the resolved title (vacancy.py lines
70-87: first non-empty stripped text among the title selectors, else the
empty string). `idLookupRaises` is true when the WebDriver raises inside
the attribute/link `try` block of lines 47-62; the other two id fields
are then irrelevant. -/
structure CardData where
  dataVacancyId : Option String
  linkHref : Option String
  title : String
  idLookupRaises : Bool

/-- `href.split('/vacancy/')[1].split('?')[0]` (vacancy.py line 59). -/
def hrefToId (href : String) : String :=
  ((href.splitOn "/vacancy/").getD 1 "").splitOn "?" |>.headD ""

/-- Python truthiness of the `data-vacancy-id` attribute (vacancy.py line
50): present and non-empty. -/
def dvIdTruthy (c : CardData) : Bool :=
  match c.dataVacancyId with
  | some v => v != ""
  | none => false

/-- The identity parsed from the card's detail-page link, when the link
exists and its `href` is truthy and contains `'/vacancy/'` (vacancy.py
lines 55-60). Note the parsed identifier is returned even when it is the
empty string. -/
def linkId (c : CardData) : Option String :=
  match c.linkHref with
  | none => none
  | some href =>
      if href != "" && strIn "/vacancy/" href then some (hrefToId href) else none

/-- The hash fallback of vacancy.py lines 64-66: only a non-empty title
produces an identity. -/
def titleHashId (c : CardData) : Option String :=
  if c.title != "" then some (hashId c.title) else none

/-- `VacancyCard.id` (vacancy.py lines 39-68): the `data-vacancy-id`
attribute when truthy, else the identifier parsed from the detail-page
link, else the title hash; an exception inside the lookup `try` block
jumps straight to the hash fallback. -/
def vacancyCardId (c : CardData) : Option String :=
  if c.idLookupRaises then titleHashId c
  else if dvIdTruthy c then c.dataVacancyId
  else
    match linkId c with
    | some l => some l
    | none => titleHashId c

/-- The browser-side observations `ApplicationModal.open` makes
(modal.py lines 56-69). `clickRaisesTimeout` is a `TimeoutException`
raised while clicking (the trailing `wait_for_element` call swallows its
own timeout inside `SeleniumHelper.wait_for_element`, selenium_helper.py
lines 70-77, so it can never make `open` return `False`).
`urlAfterClick` is `driver.current_url` read right after the click. -/
structure ModalOpenEnv where
  clickRaisesTimeout : Bool
  urlAfterClick : String

/-- `ApplicationModal.open` (modal.py lines 56-69): `False` exactly when a
`TimeoutException` is raised by the click, or the page URL changed after
the click; otherwise `True` (whether or not the dialog actually
appeared, since the final wait swallows its timeout). -/
def modalOpen (m : ModalOpenEnv) (originalUrl : String) : Bool :=
  if m.clickRaisesTimeout then false
  else if m.urlAfterClick != originalUrl then false
  else true

/-- The browser-side outcomes `HHApplierBot._process_card` observes after
the ledger gate (bot.py lines 146-212), one field per branch condition
the code reads, in source order. `openResult` is the value
`self.modal.open(btn)` returns; `urlChangedAfterOpenFail` is whether
`driver.current_url` differs from the search page URL when that call
returned `False` (lines 155-156). `raisesAtMandatoryTestCheck` models an
exception raised at the head of the `try` block (line 166), which the
`except` arm of lines 204-207 turns into an `error: ...` skip record; an
exception raised later in the block is caught by the same arm and is not
needed by any claim. -/
structure CardEnv where
  hasApplyButton : Bool
  openResult : Bool
  urlChangedAfterOpenFail : Bool
  raisesAtMandatoryTestCheck : Bool
  errMessage : String
  hasMandatoryTest : Bool
  coverLetterRequired : Bool
  addCoverLetterOk : Bool
  submitOk : Bool

/-- The externally visible actions `_process_card` can perform, in order:
attempting to open the application dialog, attempting to submit it,
writing a ledger record, closing the dialog, navigating back. -/
inductive Event where
  | openDialog : Event
  | submitAttempt : Event
  | markProc (vid : String) : Event
  | markSkip (vid : String) : Event
  | closeDialog : Event
  | navBack : Event
deriving DecidableEq

/-- `HHApplierBot._process_card` (bot.py lines 118-212), as a function from
the card, the browser environment, the global keyword filter
(`self.config.allowed_keywords`, line 141 — note the per-query keyword
lists of the configuration are never consulted) and the storage state to
the new storage state plus the trace of externally visible actions.
Resolution order follows the source: title gate (126-128), processed and
skipped gates (130-136), keyword filter (141-144), apply-button check
(146-150), dialog open with redirect detection (152-163), then the
`try` block (165-212) with mandatory-test, cover-letter, submit and
error arms. `now` is the `time.time()` value of any mark performed. -/
def processCard (allowedKeywords : List String) (env : CardEnv) (c : CardData)
    (s : VacancyStorage) (now : Int) : VacancyStorage × List Event :=
  if c.title == "" then (s, [])
  else
    match vacancyCardId c with
    | none => (s, [])
    | some vid =>
      if isProcessed s vid then (s, [])
      else if isSkipped s vid then (s, [])
      else if !allowedKeywords.isEmpty && !isSuitable c.title allowedKeywords then
        (markSkipped s vid c.title "not_suitable_keywords" now, [Event.markSkip vid])
      else if !env.hasApplyButton then
        (markProcessed s vid c.title "already_applied" false now, [Event.markProc vid])
      else if !env.openResult then
        if env.urlChangedAfterOpenFail then
          (markSkipped s vid c.title "mandatory_test_redirect" now,
           [Event.openDialog, Event.markSkip vid, Event.navBack])
        else (s, [Event.openDialog])
      else if env.raisesAtMandatoryTestCheck then
        (markSkipped s vid c.title ("error: " ++ env.errMessage.take 100) now,
         [Event.openDialog, Event.markSkip vid, Event.closeDialog])
      else if env.hasMandatoryTest then
        (markSkipped s vid c.title "mandatory_test" now,
         [Event.openDialog, Event.markSkip vid, Event.closeDialog])
      else if env.coverLetterRequired && !env.addCoverLetterOk then
        (markSkipped s vid c.title "cover_letter_failed" now,
         [Event.openDialog, Event.markSkip vid, Event.closeDialog])
      else if env.submitOk then
        (markProcessed s vid c.title "applied"
           (env.coverLetterRequired && env.addCoverLetterOk) now,
         [Event.openDialog, Event.submitAttempt, Event.markProc vid, Event.closeDialog])
      else
        (markSkipped s vid c.title "submit_failed" now,
         [Event.openDialog, Event.submitAttempt, Event.markSkip vid, Event.closeDialog])

/-- One configured search query, as the dictionaries in
`config.search_queries` are shaped (config.py lines 150-162): a target
URL, an optional display name, and a per-query keyword list — which
`bot.py` never reads (its `_process_search_query` touches only `url` and
`name`). -/
structure SearchQuery where
  url : Option String
  name : Option String
  keywords : List String

/-- One mark call on the ledger, for reasoning about reachable states. -/
inductive LedgerOp where
  | proc (vid title status : String) (coverLetter : Bool) (now : Int) : LedgerOp
  | skip (vid title reason : String) (now : Int) : LedgerOp

/-- Apply one mark call. -/
def applyOp (s : VacancyStorage) : LedgerOp → VacancyStorage
  | LedgerOp.proc vid title status cl now => markProcessed s vid title status cl now
  | LedgerOp.skip vid title reason now => markSkipped s vid title reason now

/-- Run a sequence of mark calls left to right. -/
def runOps (s : VacancyStorage) : List LedgerOp → VacancyStorage
  | [] => s
  | op :: rest => runOps (applyOp s op) rest

/-- Whether a sequence contains a `mark_processed` call for `vid`. -/
def opsProc (ops : List LedgerOp) (vid : String) : Bool :=
  ops.any fun op =>
    match op with
    | LedgerOp.proc v _ _ _ _ => v == vid
    | LedgerOp.skip _ _ _ _ => false

/-- Whether a sequence contains a `mark_skipped` call for `vid`. -/
def opsSkip (ops : List LedgerOp) (vid : String) : Bool :=
  ops.any fun op =>
    match op with
    | LedgerOp.proc _ _ _ _ _ => false
    | LedgerOp.skip v _ _ _ => v == vid

/-- What the page loop of `_process_search_query` observes about each page:
how many vacancy cards `_get_vacancy_cards` returns on the page, what
`_has_next_page` reports there, and whether `_go_to_next_page` succeeds
from there. -/
structure PageEnv where
  cardCount : Nat → Nat
  hasNextPage : Nat → Bool
  advanceOk : Nat → Bool

/-- How the page loop of `_process_search_query` ends. -/
inductive StopReason where
  | notEntered : StopReason
  | noCards : StopReason
  | noNextPage : StopReason
  | advanceFailed : StopReason
  | maxPagesReached : StopReason
deriving DecidableEq

/-- The `while page_num <= max_pages` loop of `_process_search_query`
(bot.py lines 322-415), with the per-card processing elided: the card
work never changes the loop control, which depends only on whether the
page has cards (lines 325-328), `page_num < max_pages` (line 395),
`_has_next_page` (line 397) and `_go_to_next_page` (line 401). The
second argument is `max_pages + 1 - page_num`, the number of loop
iterations still allowed, so `0` is an unentered loop and `1` means
`page_num = max_pages`, where line 412's `else` arm breaks with the
limit message. Returns the visited page numbers in order, and why the
loop stopped. -/
def pageLoopGo (env : PageEnv) : Nat → Nat → List Nat × StopReason
  | _, 0 => ([], StopReason.notEntered)
  | page, 1 =>
      if env.cardCount page == 0 then ([page], StopReason.noCards)
      else ([page], StopReason.maxPagesReached)
  | page, remaining + 2 =>
      if env.cardCount page == 0 then ([page], StopReason.noCards)
      else if env.hasNextPage page then
        if env.advanceOk page then
          let r := pageLoopGo env (page + 1) (remaining + 1)
          (page :: r.1, r.2)
        else ([page], StopReason.advanceFailed)
      else ([page], StopReason.noNextPage)

/-- The page loop started at `page_num = 1` (bot.py line 317). -/
def pageLoop (env : PageEnv) (maxPages : Nat) : List Nat × StopReason :=
  pageLoopGo env 1 maxPages

/-- Inserting a binding makes it retrievable at its key. -/
theorem dictGet_insert_self {α : Type} (d : Dict α) (k : String) (v : α) :
    dictGet (dictInsert d k v) k = some v := by
  induction d with
  | nil => simp [dictInsert, dictGet]
  | cons hd t ih =>
      obtain ⟨k', v'⟩ := hd
      cases hk : k' == k with
      | false => simp [dictInsert, hk, dictGet, ih]
      | true => simp [dictInsert, hk, dictGet]

/-- Inserting at one key does not change lookups at any other key. -/
theorem dictGet_insert_ne {α : Type} (d : Dict α) (k i : String) (v : α)
    (h : (k == i) = false) :
    dictGet (dictInsert d k v) i = dictGet d i := by
  induction d with
  | nil => simp [dictInsert, dictGet, h]
  | cons hd t ih =>
      obtain ⟨k', v'⟩ := hd
      cases hk : k' == k with
      | false => simp [dictInsert, hk, dictGet, ih]
      | true =>
          have hk' : k' = k := eq_of_beq hk
          subst hk'
          simp [dictInsert, dictGet, h]

/-- Membership after an insert: the inserted key, or prior membership. -/
theorem dictContains_insert {α : Type} (d : Dict α) (k i : String) (v : α) :
    dictContains (dictInsert d k v) i = ((k == i) || dictContains d i) := by
  cases hk : k == i with
  | false =>
      unfold dictContains
      rw [dictGet_insert_ne d k i v hk]
      simp
  | true =>
      have hk' : k = i := eq_of_beq hk
      subst hk'
      unfold dictContains
      rw [dictGet_insert_self]
      simp

/-- `save` never changes the in-memory partitions; it increments the
counter by exactly one. -/
theorem storageSave_fields (s : VacancyStorage) (force : Bool) :
    (storageSave s force).1.processed = s.processed ∧
    (storageSave s force).1.skipped = s.skipped ∧
    (storageSave s force).1.saveCounter = s.saveCounter + 1 ∧
    (storageSave s force).1.saveInterval = s.saveInterval := by
  unfold storageSave
  split <;> exact ⟨rfl, rfl, rfl, rfl⟩

/-- The processed partition after `mark_processed`. -/
theorem markProcessed_processed (s : VacancyStorage) (vid title status : String)
    (cl : Bool) (now : Int) :
    (markProcessed s vid title status cl now).processed =
      dictInsert s.processed vid (procEntry title status cl now) := by
  unfold markProcessed
  exact (storageSave_fields _ _).1

/-- `mark_processed` leaves the skipped partition untouched. -/
theorem markProcessed_skipped (s : VacancyStorage) (vid title status : String)
    (cl : Bool) (now : Int) :
    (markProcessed s vid title status cl now).skipped = s.skipped := by
  unfold markProcessed
  exact (storageSave_fields _ _).2.1

/-- The skipped partition after `mark_skipped`. -/
theorem markSkipped_skipped (s : VacancyStorage) (vid title reason : String)
    (now : Int) :
    (markSkipped s vid title reason now).skipped =
      dictInsert s.skipped vid (skipEntry title reason now) := by
  unfold markSkipped
  exact (storageSave_fields _ _).2.1

/-- `mark_skipped` leaves the processed partition untouched. -/
theorem markSkipped_processed (s : VacancyStorage) (vid title reason : String)
    (now : Int) :
    (markSkipped s vid title reason now).processed = s.processed := by
  unfold markSkipped
  exact (storageSave_fields _ _).1

/-- `is_processed` after `mark_processed`. -/
theorem isProcessed_markProcessed (s : VacancyStorage) (vid title status : String)
    (cl : Bool) (now : Int) (i : String) :
    isProcessed (markProcessed s vid title status cl now) i =
      ((vid == i) || isProcessed s i) := by
  unfold isProcessed
  rw [markProcessed_processed]
  exact dictContains_insert _ _ _ _

/-- `mark_skipped` does not change `is_processed`. -/
theorem isProcessed_markSkipped (s : VacancyStorage) (vid title reason : String)
    (now : Int) (i : String) :
    isProcessed (markSkipped s vid title reason now) i = isProcessed s i := by
  unfold isProcessed
  rw [markSkipped_processed]

/-- `is_skipped` after `mark_skipped`. -/
theorem isSkipped_markSkipped (s : VacancyStorage) (vid title reason : String)
    (now : Int) (i : String) :
    isSkipped (markSkipped s vid title reason now) i =
      ((vid == i) || isSkipped s i) := by
  unfold isSkipped
  rw [markSkipped_skipped]
  exact dictContains_insert _ _ _ _

/-- `mark_processed` does not change `is_skipped`. -/
theorem isSkipped_markProcessed (s : VacancyStorage) (vid title status : String)
    (cl : Bool) (now : Int) (i : String) :
    isSkipped (markProcessed s vid title status cl now) i = isSkipped s i := by
  unfold isSkipped
  rw [markProcessed_skipped]

/-- Processed-membership after a sequence of mark calls: an identity is in
the processed partition exactly when it was there initially or some
`mark_processed` call in the sequence used it. -/
theorem isProcessed_runOps (ops : List LedgerOp) (s : VacancyStorage) (i : String) :
    isProcessed (runOps s ops) i = (isProcessed s i || opsProc ops i) := by
  induction ops generalizing s with
  | nil => simp [runOps, opsProc]
  | cons op rest ih =>
      cases op with
      | proc v t st cl now =>
          rw [runOps, ih, applyOp, isProcessed_markProcessed]
          simp only [opsProc, List.any_cons]
          cases v == i <;> cases isProcessed s i <;> simp [opsProc]
      | skip v t r now =>
          rw [runOps, ih, applyOp, isProcessed_markSkipped]
          simp only [opsProc, List.any_cons]
          cases isProcessed s i <;> simp [opsProc]

/-- Skipped-membership after a sequence of mark calls, symmetrically. -/
theorem isSkipped_runOps (ops : List LedgerOp) (s : VacancyStorage) (i : String) :
    isSkipped (runOps s ops) i = (isSkipped s i || opsSkip ops i) := by
  induction ops generalizing s with
  | nil => simp [runOps, opsSkip]
  | cons op rest ih =>
      cases op with
      | proc v t st cl now =>
          rw [runOps, ih, applyOp, isSkipped_markProcessed]
          simp only [opsSkip, List.any_cons]
          cases isSkipped s i <;> simp [opsSkip]
      | skip v t r now =>
          rw [runOps, ih, applyOp, isSkipped_markSkipped]
          simp only [opsSkip, List.any_cons]
          cases v == i <;> cases isSkipped s i <;> simp [opsSkip]

/-- C1: once an identity is known to the Ledger (present in either
partition), any traversal pass over a card whose identity resolves to it
returns from `_process_card` at the gates of bot.py lines 130-136: the
storage — both partitions included — is returned unchanged, and no
externally visible action (no dialog open, no submit, no
`mark_processed`/`mark_skipped`) is performed. -/
theorem c1_idempotent_classification (kws : List String) (env : CardEnv)
    (c : CardData) (s : VacancyStorage) (now : Int) (i : String)
    (hid : vacancyCardId c = some i) (hk : isKnown s i = true) :
    processCard kws env c s now = (s, []) := by
  cases ht : c.title == "" with
  | true => simp [processCard, ht]
  | false =>
      cases hp : isProcessed s i with
      | true => simp [processCard, ht, hid, hp]
      | false =>
          unfold isKnown at hk
          rw [hp] at hk
          simp only [Bool.false_or] at hk
          simp [processCard, ht, hid, hp, hk]

/-- A concrete card carrying the site identifier `A`. -/
def c1card : CardData :=
  { dataVacancyId := some "A", linkHref := none, title := "Linux Admin",
    idLookupRaises := false }

/-- A benign browser environment for witnesses: apply button present,
dialog opens, no test, no cover letter, submit succeeds. -/
def happyEnv : CardEnv :=
  { hasApplyButton := true, openResult := true, urlChangedAfterOpenFail := false,
    raisesAtMandatoryTestCheck := false, errMessage := "",
    hasMandatoryTest := false, coverLetterRequired := false,
    addCoverLetterOk := true, submitOk := true }

/-- A storage that already has identity `A` in the processed partition. -/
def c1store : VacancyStorage :=
  { emptyStorage with
      processed := [("A", procEntry "Linux Admin" "applied" false 0)] }

/-- C1 witness: a card resolving to the already-processed identity `A` is
passed over without any change or action. -/
theorem c1_idempotent_classification_witness :
    vacancyCardId c1card = some "A" ∧ isKnown c1store "A" = true ∧
    processCard ["linux"] happyEnv c1card c1store 7 = (c1store, []) :=
  ⟨by decide, by decide,
   c1_idempotent_classification ["linux"] happyEnv c1card c1store 7 "A"
     (by decide) (by decide)⟩

/-- The two-call sequence refuting C2 as stated: `mark_skipped` then
`mark_processed` on the same identity. Nothing in `VacancyStorage` ever
removes an identity from the other partition, so the identity ends up in
both. (The integrated bot normally prevents this through the `is_known`
gate, but the claim quantifies over every call sequence — and the gate
itself is not airtight: inside `_process_card`, an exception raised
after the `mark_processed` of bot.py line 195, e.g. by `driver.back()`
on line 201, reaches the `except` arm of lines 204-207, which then
`mark_skipped`s the same identity.) -/
def c2ops : List LedgerOp :=
  [LedgerOp.skip "A" "t" "submit_failed" 0,
   LedgerOp.proc "A" "t" "applied" false 1]

/-- C2 counterexample: after `mark_skipped("A", ...)` followed by
`mark_processed("A", ...)` from empty partitions, `A` is a key of both
partitions simultaneously, contradicting the claim for this reachable
state. -/
theorem c2_partition_exclusivity_counterexample :
    isProcessed (runOps emptyStorage c2ops) "A" = true ∧
    isSkipped (runOps emptyStorage c2ops) "A" = true := by
  constructor <;> decide

/-- C2 as amended: for every sequence of mark calls starting from empty
partitions in which no identity receives both a `mark_processed` and a
`mark_skipped` call, no identity is a key of both partitions. (The
original claim fails because the marks never remove the identity from
the other partition; exclusivity holds only under the one-mark-per-
identity discipline that the traversal engine's `is_known` gate is meant
to enforce.) -/
theorem c2_partition_exclusivity_amended (ops : List LedgerOp)
    (h : ∀ vid, ¬(opsProc ops vid = true ∧ opsSkip ops vid = true)) :
    ∀ vid, ¬(isProcessed (runOps emptyStorage ops) vid = true ∧
             isSkipped (runOps emptyStorage ops) vid = true) := by
  intro vid hboth
  obtain ⟨hp, hs⟩ := hboth
  rw [isProcessed_runOps] at hp
  rw [isSkipped_runOps] at hs
  have hpe : isProcessed emptyStorage vid = false := rfl
  have hse : isSkipped emptyStorage vid = false := rfl
  rw [hpe, Bool.false_or] at hp
  rw [hse, Bool.false_or] at hs
  exact h vid ⟨hp, hs⟩

/-- C2 amended witness: a processed-only and a skipped-only mark on two
distinct identities satisfy the discipline, and exclusivity holds. -/
theorem c2_partition_exclusivity_amended_witness :
    (∀ vid, ¬(opsProc [LedgerOp.proc "A" "t" "applied" false 0,
                       LedgerOp.skip "B" "u" "mandatory_test" 1] vid = true ∧
              opsSkip [LedgerOp.proc "A" "t" "applied" false 0,
                       LedgerOp.skip "B" "u" "mandatory_test" 1] vid = true)) ∧
    (∀ vid, ¬(isProcessed (runOps emptyStorage
                [LedgerOp.proc "A" "t" "applied" false 0,
                 LedgerOp.skip "B" "u" "mandatory_test" 1]) vid = true ∧
              isSkipped (runOps emptyStorage
                [LedgerOp.proc "A" "t" "applied" false 0,
                 LedgerOp.skip "B" "u" "mandatory_test" 1]) vid = true)) := by
  have h : ∀ vid, ¬(opsProc [LedgerOp.proc "A" "t" "applied" false 0,
                             LedgerOp.skip "B" "u" "mandatory_test" 1] vid = true ∧
                    opsSkip [LedgerOp.proc "A" "t" "applied" false 0,
                             LedgerOp.skip "B" "u" "mandatory_test" 1] vid = true) := by
    intro vid hboth
    obtain ⟨hp, hs⟩ := hboth
    simp only [opsProc, opsSkip, List.any_cons, List.any_nil] at hp hs
    have ha : ("A" == vid) = true := by
      revert hp
      cases "A" == vid <;> simp
    have hb : ("B" == vid) = true := by
      revert hs
      cases "B" == vid <;> simp
    have : vid = "A" := (eq_of_beq ha).symm
    subst this
    exact absurd (eq_of_beq hb) (by decide)
  exact ⟨h, c2_partition_exclusivity_amended _ h⟩

/-- C3: `save` increments the mutation counter by exactly one and writes
both partitions to the durable files if and only if `force` is set or
the incremented counter is a multiple of `save_interval` (the counter is
incremented at the start of `save`, storage.py line 48, so the
multiple-of test applies to the just-incremented value); when the write
branch is not taken the files are untouched. Each of `mark_processed`
and `mark_skipped` is exactly one partition insert followed by exactly
one unforced conditional `save`, so it too increments the counter by
one. The hypothesis `0 < save_interval` keeps the model inside
Python-defined behaviour: `% 0` would raise `ZeroDivisionError`
(the configured default is 10). -/
theorem c3_conditional_flush (s : VacancyStorage) (force : Bool)
    (_hpos : 0 < s.saveInterval) :
    (storageSave s force).2 =
      (force || ((s.saveCounter + 1) % s.saveInterval == 0)) ∧
    (storageSave s force).1.saveCounter = s.saveCounter + 1 ∧
    ((storageSave s force).2 = true →
      (storageSave s force).1.procFile = FileContent.stored s.processed ∧
      (storageSave s force).1.skipFile = FileContent.stored s.skipped) ∧
    ((storageSave s force).2 = false →
      (storageSave s force).1.procFile = s.procFile ∧
      (storageSave s force).1.skipFile = s.skipFile) ∧
    (∀ vid title status cl now,
      (markProcessed s vid title status cl now).saveCounter = s.saveCounter + 1 ∧
      markProcessed s vid title status cl now =
        (storageSave
          { s with processed :=
              dictInsert s.processed vid (procEntry title status cl now) }
          false).1) ∧
    (∀ vid title reason now,
      (markSkipped s vid title reason now).saveCounter = s.saveCounter + 1 ∧
      markSkipped s vid title reason now =
        (storageSave
          { s with skipped :=
              dictInsert s.skipped vid (skipEntry title reason now) }
          false).1) := by
  refine ⟨?_, (storageSave_fields s force).2.2.1, ?_, ?_, ?_, ?_⟩
  · cases hc : (force || ((s.saveCounter + 1) % s.saveInterval == 0)) with
    | true => simp [storageSave, hc]
    | false => simp [storageSave, hc]
  · intro hw
    cases hc : (force || ((s.saveCounter + 1) % s.saveInterval == 0)) with
    | true => simp [storageSave, hc]
    | false => simp [storageSave, hc] at hw
  · intro hw
    cases hc : (force || ((s.saveCounter + 1) % s.saveInterval == 0)) with
    | true => simp [storageSave, hc] at hw
    | false => simp [storageSave, hc]
  · intro vid title status cl now
    exact ⟨(storageSave_fields _ _).2.2.1, rfl⟩
  · intro vid title reason now
    exact ⟨(storageSave_fields _ _).2.2.1, rfl⟩

/-- C3 witness: on the fresh storage (counter 0, interval 10) an unforced
save does not write, matching the stated condition. -/
theorem c3_conditional_flush_witness :
    0 < emptyStorage.saveInterval ∧
    (storageSave emptyStorage false).2 =
      (false || ((emptyStorage.saveCounter + 1) % emptyStorage.saveInterval == 0)) :=
  ⟨by decide, (c3_conditional_flush emptyStorage false (by decide)).1⟩

/-- C5: after a forced flush, loading each partition back from its durable
file yields exactly the entries that were in memory at flush time —
`save(force=True)` followed by `_load_json` is the identity on both
partition maps. (Serialization is modelled at the JSON-value level:
`json.dump` with `ensure_ascii=False` and `json.load` are mutually
inverse on the object documents the ledger writes.) -/
theorem c5_forced_flush_roundtrip (s : VacancyStorage) :
    loadJson (storageSave s true).1.procFile = LoadResult.ok s.processed ∧
    loadJson (storageSave s true).1.skipFile = LoadResult.ok s.skipped := by
  unfold storageSave
  simp [loadJson]

/-- C6: what `_load_json` does on each class of durable-file content. A
missing file, an `IOError`, and content that is text but not valid JSON
(`json.JSONDecodeError`) all yield the empty partition without raising —
but a file whose bytes are not valid UTF-8 makes `json.load` raise
`UnicodeDecodeError`, which the `except (json.JSONDecodeError, IOError)`
clause of storage.py line 33 does not catch, so the load aborts instead
of returning an empty partition: the claim's "invalid content never
aborts" is the documented intent (the function's own docstring promises
the empty-dict fallback) and the code falls short of it on exactly this
class of invalid content. -/
theorem c6_load_resilience :
    loadJson FileContent.missing = LoadResult.ok [] ∧
    loadJson FileContent.ioError = LoadResult.ok [] ∧
    loadJson FileContent.invalidJson = LoadResult.ok [] ∧
    loadJson FileContent.undecodable = LoadResult.unicodeDecodeError :=
  ⟨rfl, rfl, rfl, rfl⟩

/-- C9: `mark_processed` changes only the processed-partition entry of its
own identity — the whole skipped partition and every other processed key
are untouched (in particular the identity is not removed from the
skipped partition if present there, since `is_skipped` is unchanged);
symmetrically for `mark_skipped`. -/
theorem c9_mark_frame (s : VacancyStorage) (vid title status reason : String)
    (cl : Bool) (now : Int) (k : String) (hk : k ≠ vid) :
    (markProcessed s vid title status cl now).skipped = s.skipped ∧
    dictGet (markProcessed s vid title status cl now).processed k =
      dictGet s.processed k ∧
    dictGet (markProcessed s vid title status cl now).processed vid =
      some (procEntry title status cl now) ∧
    isSkipped (markProcessed s vid title status cl now) vid = isSkipped s vid ∧
    (markSkipped s vid title reason now).processed = s.processed ∧
    dictGet (markSkipped s vid title reason now).skipped k =
      dictGet s.skipped k ∧
    dictGet (markSkipped s vid title reason now).skipped vid =
      some (skipEntry title reason now) ∧
    isProcessed (markSkipped s vid title reason now) vid = isProcessed s vid := by
  have hne : (vid == k) = false := beq_eq_false_iff_ne.mpr fun hvk => hk hvk.symm
  refine ⟨markProcessed_skipped .., ?_, ?_, isSkipped_markProcessed ..,
          markSkipped_processed .., ?_, ?_, isProcessed_markSkipped ..⟩
  · rw [markProcessed_processed]
    exact dictGet_insert_ne _ _ _ _ hne
  · rw [markProcessed_processed]
    exact dictGet_insert_self _ _ _
  · rw [markSkipped_skipped]
    exact dictGet_insert_ne _ _ _ _ hne
  · rw [markSkipped_skipped]
    exact dictGet_insert_self _ _ _

/-- C9 witness: the frame conditions evaluated at identity `A`, a distinct
key `B`, and a concrete storage with one entry under each key. -/
theorem c9_mark_frame_witness :
    ("B" : String) ≠ "A" ∧
    ((markProcessed c1store "A" "t" "applied" false 3).skipped = c1store.skipped ∧
    dictGet (markProcessed c1store "A" "t" "applied" false 3).processed "B" =
      dictGet c1store.processed "B" ∧
    dictGet (markProcessed c1store "A" "t" "applied" false 3).processed "A" =
      some (procEntry "t" "applied" false 3) ∧
    isSkipped (markProcessed c1store "A" "t" "applied" false 3) "A" =
      isSkipped c1store "A" ∧
    (markSkipped c1store "A" "t" "mandatory_test" 3).processed = c1store.processed ∧
    dictGet (markSkipped c1store "A" "t" "mandatory_test" 3).skipped "B" =
      dictGet c1store.skipped "B" ∧
    dictGet (markSkipped c1store "A" "t" "mandatory_test" 3).skipped "A" =
      some (skipEntry "t" "mandatory_test" 3) ∧
    isProcessed (markSkipped c1store "A" "t" "mandatory_test" 3) "A" =
      isProcessed c1store "A") :=
  ⟨by decide, c9_mark_frame c1store "A" "t" "applied" "mandatory_test" false 3 "B"
    (by decide)⟩

/-- The concrete query refuting C4 as stated: it carries its own keyword
filter `["linux"]` in the configuration shape of config.py lines 150-162. -/
def c4query : SearchQuery :=
  { url := some "https://hh.ru/search/vacancy?text=linux", name := some "linux",
    keywords := ["linux"] }

/-- A card titled `Sales Manager`, which matches none of `c4query`'s
keywords. -/
def c4card : CardData :=
  { dataVacancyId := some "B1", linkHref := none, title := "Sales Manager",
    idLookupRaises := false }

/-- C4 counterexample: the claim keys the filter to the query's own keyword
list, but bot.py line 141 reads only the global `config.allowed_keywords`
and `_process_search_query` never passes `query['keywords']` anywhere.
With the query filter `["linux"]` non-empty and the title matching none
of it, but the global list empty, `_process_card` does not record the
card as skipped — it attempts the action (dialog opened, submit
attempted) instead. -/
theorem c4_keyword_gate_counterexample :
    c4query.keywords ≠ [] ∧
    isSuitable c4card.title c4query.keywords = false ∧
    dictGet (processCard [] happyEnv c4card emptyStorage 0).1.skipped "B1" = none ∧
    Event.openDialog ∈ (processCard [] happyEnv c4card emptyStorage 0).2 ∧
    Event.submitAttempt ∈ (processCard [] happyEnv c4card emptyStorage 0).2 := by
  refine ⟨by decide, by decide, rfl, by decide, by decide⟩

/-- C4 as amended: the keyword gate is keyed to the run's global keyword
list (`config.allowed_keywords`), not to the query's. For every card
with a non-empty title and an identity unknown to the ledger, if the
global list is non-empty and the title contains none of its keywords
(case-insensitive substring), the card is recorded in the skipped
partition with reason `not_suitable_keywords` and no action attempt
occurs (no dialog open, no submit, no processed mark). -/
theorem c4_keyword_gate_amended (kws : List String) (env : CardEnv)
    (c : CardData) (s : VacancyStorage) (now : Int) (vid : String)
    (ht : c.title ≠ "") (hid : vacancyCardId c = some vid)
    (hp : isProcessed s vid = false) (hs : isSkipped s vid = false)
    (hkw : kws ≠ []) (hsuit : isSuitable c.title kws = false) :
    processCard kws env c s now =
      (markSkipped s vid c.title "not_suitable_keywords" now,
       [Event.markSkip vid]) ∧
    dictGet (processCard kws env c s now).1.skipped vid =
      some (skipEntry c.title "not_suitable_keywords" now) ∧
    Event.openDialog ∉ (processCard kws env c s now).2 ∧
    Event.submitAttempt ∉ (processCard kws env c s now).2 ∧
    Event.markProc vid ∉ (processCard kws env c s now).2 := by
  have htb : (c.title == "") = false := beq_eq_false_iff_ne.mpr ht
  have hke : kws.isEmpty = false := by
    cases kws with
    | nil => exact absurd rfl hkw
    | cons a l => rfl
  have hmain : processCard kws env c s now =
      (markSkipped s vid c.title "not_suitable_keywords" now,
       [Event.markSkip vid]) := by
    simp [processCard, htb, hid, hp, hs, hke, hsuit]
  refine ⟨hmain, ?_, ?_, ?_, ?_⟩
  · rw [hmain]
    simp [markSkipped_skipped, dictGet_insert_self]
  · rw [hmain]
    simp
  · rw [hmain]
    simp
  · rw [hmain]
    simp

/-- C4 amended witness: an unknown card titled `Sales Manager` under the
global filter `["linux"]` is recorded as skipped for keywords, with no
attempt. -/
theorem c4_keyword_gate_amended_witness :
    c4card.title ≠ "" ∧ vacancyCardId c4card = some "B1" ∧
    isProcessed emptyStorage "B1" = false ∧ isSkipped emptyStorage "B1" = false ∧
    (["linux"] : List String) ≠ [] ∧
    isSuitable c4card.title ["linux"] = false ∧
    (processCard ["linux"] happyEnv c4card emptyStorage 0 =
      (markSkipped emptyStorage "B1" c4card.title "not_suitable_keywords" 0,
       [Event.markSkip "B1"]) ∧
    dictGet (processCard ["linux"] happyEnv c4card emptyStorage 0).1.skipped "B1" =
      some (skipEntry c4card.title "not_suitable_keywords" 0) ∧
    Event.openDialog ∉ (processCard ["linux"] happyEnv c4card emptyStorage 0).2 ∧
    Event.submitAttempt ∉ (processCard ["linux"] happyEnv c4card emptyStorage 0).2 ∧
    Event.markProc "B1" ∉ (processCard ["linux"] happyEnv c4card emptyStorage 0).2) :=
  ⟨by decide, by decide, rfl, rfl, by decide, by decide,
   c4_keyword_gate_amended ["linux"] happyEnv c4card emptyStorage 0 "B1"
     (by decide) (by decide) rfl rfl (by decide) (by decide)⟩

/-- One inner iteration of the page loop with at least two iterations still
allowed: cards present, a next page advertised, and the advance
succeeding lead to the next page. -/
theorem pageLoopGo_step (env : PageEnv) (page r : Nat)
    (h0 : env.cardCount page ≠ 0) (hn : env.hasNextPage page = true)
    (ha : env.advanceOk page = true) :
    pageLoopGo env page (r + 2) =
      (page :: (pageLoopGo env (page + 1) (r + 1)).1,
       (pageLoopGo env (page + 1) (r + 1)).2) := by
  have hb : (env.cardCount page == 0) = false := beq_eq_false_iff_ne.mpr h0
  simp [pageLoopGo, hb, hn, ha]

/-- The final iteration of the page loop (`page_num = max_pages`): with
cards present, line 412's `else` arm breaks with the limit message. -/
theorem pageLoopGo_last (env : PageEnv) (page : Nat)
    (h0 : env.cardCount page ≠ 0) :
    pageLoopGo env page 1 = ([page], StopReason.maxPagesReached) := by
  have hb : (env.cardCount page == 0) = false := beq_eq_false_iff_ne.mpr h0
  simp [pageLoopGo, hb]

/-- A page driver that always advertises a next page and always advances,
but whose every page is empty of cards. -/
def c7envEmpty : PageEnv :=
  { cardCount := fun _ => 0, hasNextPage := fun _ => true,
    advanceOk := fun _ => true }

/-- C7 counterexample: with `max_pages = 3`, a driver that always reports a
next page and always advances — but yields zero cards — makes the loop
break at line 328 after visiting only page 1, not pages 1, 2 and 3: the
claim as stated omits the zero-items termination condition that the
spec's own pagination-termination rule puts first. -/
theorem c7_pagination_counterexample :
    pageLoop c7envEmpty 3 = ([1], StopReason.noCards) ∧
    pageLoop c7envEmpty 3 ≠ ([1, 2, 3], StopReason.maxPagesReached) := by
  constructor
  · rfl
  · decide

/-- C7 as amended: with `max_pages = 3`, a Page Driver that always reports
a next page exists, every page-advance succeeding, and every visited
page yielding at least one item, the loop visits exactly pages 1, 2, 3
and then stops through the normal limit branch (bot.py lines 412-415) —
reaching the maximum page count is a normal break, not an error. -/
theorem c7_pagination_amended (env : PageEnv)
    (hcards : ∀ n, env.cardCount n ≠ 0)
    (hnext : ∀ n, env.hasNextPage n = true)
    (hadv : ∀ n, env.advanceOk n = true) :
    pageLoop env 3 = ([1, 2, 3], StopReason.maxPagesReached) := by
  have s1 := pageLoopGo_step env 1 1 (hcards 1) (hnext 1) (hadv 1)
  have s2 := pageLoopGo_step env 2 0 (hcards 2) (hnext 2) (hadv 2)
  have s3 := pageLoopGo_last env 3 (hcards 3)
  norm_num at s1 s2
  show pageLoopGo env 1 3 = ([1, 2, 3], StopReason.maxPagesReached)
  rw [s1, s2, s3]

/-- A page driver with twenty cards on every page, a next page always
advertised, and advances that always succeed. -/
def c7envFull : PageEnv :=
  { cardCount := fun _ => 20, hasNextPage := fun _ => true,
    advanceOk := fun _ => true }

/-- C7 amended witness: the three-page traversal on the concrete full
driver. -/
theorem c7_pagination_amended_witness :
    (∀ n, c7envFull.cardCount n ≠ 0) ∧ (∀ n, c7envFull.hasNextPage n = true) ∧
    (∀ n, c7envFull.advanceOk n = true) ∧
    pageLoop c7envFull 3 = ([1, 2, 3], StopReason.maxPagesReached) :=
  ⟨fun _ => by simp [c7envFull], fun _ => rfl, fun _ => rfl,
   c7_pagination_amended c7envFull (fun _ => by simp [c7envFull]) (fun _ => rfl)
     (fun _ => rfl)⟩

/-- C8: identity resolution priority of `VacancyCard.id` (with no WebDriver
exception in the lookup): a truthy `data-vacancy-id` attribute wins; a
falsy attribute falls back to the identifier parsed from a detail-page
link whose `href` is truthy and contains `'/vacancy/'`; when the link
yields nothing either, a non-empty title hashes to `hash_` plus the
first twelve hex digits of its MD5; with all three sources absent the
identity is unresolved (`None`). Each later source is consulted only
under the explicit failure of the earlier ones. -/
theorem c8_identity_priority (c : CardData) (hr : c.idLookupRaises = false) :
    (∀ v, c.dataVacancyId = some v → v ≠ "" → vacancyCardId c = some v) ∧
    (dvIdTruthy c = false →
      ∀ href, c.linkHref = some href → href ≠ "" →
        strIn "/vacancy/" href = true →
        vacancyCardId c = some (hrefToId href)) ∧
    (dvIdTruthy c = false → linkId c = none → c.title ≠ "" →
      vacancyCardId c = some (hashId c.title)) ∧
    (dvIdTruthy c = false → linkId c = none → c.title = "" →
      vacancyCardId c = none) := by
  refine ⟨?_, ?_, ?_, ?_⟩
  · intro v hv hne
    have hd : dvIdTruthy c = true := by
      simp [dvIdTruthy, hv, bne_iff_ne]
      exact hne
    simp [vacancyCardId, hr, hd, hv]
  · intro hd href hh hne hvac
    have hl : linkId c = some (hrefToId href) := by
      simp [linkId, hh, bne_iff_ne, hne, hvac]
    simp [vacancyCardId, hr, hd, hl]
  · intro hd hl ht
    have hth : titleHashId c = some (hashId c.title) := by
      simp [titleHashId, bne_iff_ne]
      exact ht
    simp [vacancyCardId, hr, hd, hl, hth]
  · intro hd hl ht
    have hth : titleHashId c = none := by
      simp [titleHashId, ht]
    simp [vacancyCardId, hr, hd, hl, hth]

/-- A card with no site identifier and no link, only the title `abc`. -/
def c8card : CardData :=
  { dataVacancyId := none, linkHref := none, title := "abc",
    idLookupRaises := false }

/-- C8 witness: with both identifier sources absent, the identity is the
title hash, and the hash evaluates to the first twelve hex digits of
MD5("abc") after the `hash_` marker. -/
theorem c8_identity_priority_witness :
    c8card.idLookupRaises = false ∧ dvIdTruthy c8card = false ∧
    linkId c8card = none ∧ c8card.title ≠ "" ∧
    vacancyCardId c8card = some (hashId "abc") ∧
    hashId "abc" = "hash_900150983cd2" :=
  ⟨rfl, rfl, rfl, by decide,
   (c8_identity_priority c8card rfl).2.2.1 rfl rfl (by decide), by decide⟩

/-- The modal environment of the C10 witness: the click raises a
`TimeoutException` while the page URL stays on the search page. -/
def c10modal : ModalOpenEnv :=
  { clickRaisesTimeout := true,
    urlAfterClick := "https://hh.ru/search/vacancy?text=linux" }

/-- The card of the C10 witness. -/
def c10card : CardData :=
  { dataVacancyId := some "C7", linkHref := none, title := "Linux Engineer",
    idLookupRaises := false }

/-- The browser environment of the C10 witness: apply button present, the
dialog-open attempt failing as `c10modal` dictates, URL unchanged. -/
def c10env : CardEnv :=
  { happyEnv with
      openResult := modalOpen c10modal "https://hh.ru/search/vacancy?text=linux" }

/-- C10: for an unknown card with a non-empty title that passes the keyword
filter and has an apply button, if `ApplicationModal.open` returns
`False` while the page URL is unchanged (no redirect), `_process_card`
returns through the warning arm of bot.py lines 161-163: only the open
attempt happened, the storage — both partitions — is untouched, and the
identity stays unknown, so a later pass will re-attempt it. -/
theorem c10_open_fail_no_record (kws : List String) (env : CardEnv)
    (c : CardData) (s : VacancyStorage) (now : Int) (vid : String)
    (m : ModalOpenEnv) (searchUrl : String)
    (ht : c.title ≠ "") (hid : vacancyCardId c = some vid)
    (hp : isProcessed s vid = false) (hs : isSkipped s vid = false)
    (hfilter : (!kws.isEmpty && !isSuitable c.title kws) = false)
    (hbtn : env.hasApplyButton = true)
    (hopen : env.openResult = modalOpen m searchUrl)
    (hfail : modalOpen m searchUrl = false)
    (hurl : env.urlChangedAfterOpenFail = false) :
    processCard kws env c s now = (s, [Event.openDialog]) ∧
    isKnown s vid = false := by
  have htb : (c.title == "") = false := beq_eq_false_iff_ne.mpr ht
  have ho : env.openResult = false := hopen.trans hfail
  constructor
  · simp [processCard, htb, hid, hp, hs, hfilter, hbtn, ho, hurl]
  · unfold isKnown
    rw [hp, hs]
    rfl

/-- C10 witness: a concrete unknown suitable card whose dialog-open attempt
times out with the URL unchanged is left unrecorded. -/
theorem c10_open_fail_no_record_witness :
    c10card.title ≠ "" ∧ vacancyCardId c10card = some "C7" ∧
    isProcessed emptyStorage "C7" = false ∧ isSkipped emptyStorage "C7" = false ∧
    (!(["linux"] : List String).isEmpty && !isSuitable c10card.title ["linux"]) = false ∧
    c10env.hasApplyButton = true ∧
    c10env.openResult = modalOpen c10modal "https://hh.ru/search/vacancy?text=linux" ∧
    modalOpen c10modal "https://hh.ru/search/vacancy?text=linux" = false ∧
    c10env.urlChangedAfterOpenFail = false ∧
    (processCard ["linux"] c10env c10card emptyStorage 0 =
      (emptyStorage, [Event.openDialog]) ∧
    isKnown emptyStorage "C7" = false) :=
  ⟨by decide, by decide, rfl, rfl, by decide, rfl, rfl, rfl, rfl,
   c10_open_fail_no_record ["linux"] c10env c10card emptyStorage 0 "C7"
     c10modal "https://hh.ru/search/vacancy?text=linux"
     (by decide) (by decide) rfl rfl (by decide) rfl rfl rfl rfl⟩
